import Mathlib

/-!
Verification of the decision-and-resilience engine of `autogen_ts_engine`:
the tabular Q-learning module (`rl_module.py`) and the error-recovery /
circuit-breaker layer (`error_recovery.py`).

Floating-point values of the Python source are modelled as exact rationals
(`ℚ`); Python integers as `ℤ`/`ℕ`.  Python's `int()` truncation toward zero
is modelled by `pyTrunc`.  Mutable objects are modelled by explicit state
passing: each method becomes a function from the old state (plus arguments)
to the new state (plus result).
-/

namespace AutogenTS

/-- Python `int(q)`: truncation toward zero. -/
def pyTrunc (q : ℚ) : ℤ :=
  if 0 ≤ q then ⌊q⌋ else ⌈q⌉

/-! ### Action catalog (`rl_module.py`, `ActionSpace.ACTIONS`) -/

/-- The fixed 8-action catalog, in the order of `ActionSpace.ACTIONS`. -/
inductive Action where
  | refactor_code
  | add_tests
  | improve_docs
  | split_module
  | reduce_dependencies
  | optimize_performance
  | fix_bugs
  | add_features
deriving DecidableEq

/-- `ActionSpace.get_action_index`: position of the action in `ACTIONS`. -/
def Action.index : Action → ℕ
  | .refactor_code => 0
  | .add_tests => 1
  | .improve_docs => 2
  | .split_module => 3
  | .reduce_dependencies => 4
  | .optimize_performance => 5
  | .fix_bugs => 6
  | .add_features => 7

/-- `ActionSpace.n_actions = len(ACTIONS) = 8`. -/
def nActions : ℕ := 8

/-! ### State space (`rl_module.py`, `StateSpace`) -/

/-- `StateSpace.discretize_state`: bucketize the four metric dimensions
(`min(int(x * B), B - 1)` for the three rates, `min(dep, B - 1)` for the
dependency count, where every dimension uses the same bucket count
`B = config.state_buckets`) and combine them by the mixed-radix sum of the
source.  Python ints are unbounded, so the result lives in `ℤ`. -/
def discretize_state (B : ℕ) (test_pass_rate coverage complexity : ℚ)
    (dependency_count : ℤ) : ℤ :=
  let test_bucket := min (pyTrunc (test_pass_rate * B)) ((B : ℤ) - 1)
  let coverage_bucket := min (pyTrunc (coverage * B)) ((B : ℤ) - 1)
  let complexity_bucket := min (pyTrunc (complexity * B)) ((B : ℤ) - 1)
  let dependency_bucket := min dependency_count ((B : ℤ) - 1)
  test_bucket * B * B * B +
    coverage_bucket * B * B +
    complexity_bucket * B +
    dependency_bucket

/-- `StateSpace.n_states = B * B * B * B`. -/
def n_states (B : ℕ) : ℤ := (B : ℤ) * B * B * B

/-! ### Q-learning agent (`rl_module.py`, `QLearningAgent`) -/

/-- The Q-table, as a total function `state → action index → value`
(the NumPy array `q_table` of shape `n_states × n_actions`). -/
def QTable : Type := ℕ → ℕ → ℚ

/-- Maximum of `f 0, …, f n` (used for `np.max` over a table row). -/
def rowMax (f : ℕ → ℚ) : ℕ → ℚ
  | 0 => f 0
  | n + 1 => max (rowMax f n) (f (n + 1))

/-- `np.max(self.q_table[next_state])`: the maximum over the 8 entries of
row `s` of the table. -/
def maxQ (q : QTable) (s : ℕ) : ℚ := rowMax (q s) (nActions - 1)

/-- `QLearningAgent.update`: reads the current entry and the maximum of the
(pre-update) row of the next state, then overwrites the single entry
`(state, action index)` with
`current + alpha * (reward + gamma * max_next - current)`. -/
def QLearningAgent.update (alpha gamma : ℚ) (q : QTable) (state : ℕ)
    (action : Action) (reward : ℚ) (next_state : ℕ) : QTable :=
  let action_idx := action.index
  let current_q := q state action_idx
  let max_next_q := maxQ q next_state
  let new_q := current_q + alpha * (reward + gamma * max_next_q - current_q)
  fun i j => if i = state ∧ j = action_idx then new_q else q i j

/-! ### Reward calculator (`rl_module.py`, `RewardCalculator`) -/

/-- A metrics snapshot, with the four keys read by
`RewardCalculator.calculate_reward` present.  `dependency_count` is an
integer in the source; it only enters rational arithmetic, so it is kept
in `ℚ` here. -/
structure Metrics where
  test_pass_rate : ℚ
  test_coverage : ℚ
  code_complexity : ℚ
  dependency_count : ℚ
deriving DecidableEq

/-- The `action_rewards` dictionary built inside `calculate_reward`,
comparing the current metrics against the baseline. -/
def action_rewards (baseline current : Metrics) : Action → ℚ
  | .add_tests =>
      if baseline.test_pass_rate < current.test_pass_rate then 1 else -1/2
  | .refactor_code =>
      if current.code_complexity < baseline.code_complexity then 1 else -1/2
  | .improve_docs => 1/2
  | .split_module =>
      if current.code_complexity < baseline.code_complexity then 1 else -1/2
  | .reduce_dependencies =>
      if current.dependency_count < baseline.dependency_count then 1 else -1/2
  | .optimize_performance => 1/2
  | .fix_bugs =>
      if baseline.test_pass_rate < current.test_pass_rate then 2 else -1
  | .add_features => 1/2

/-- `RewardCalculator.calculate_reward`.  The mutable `baseline_metrics`
field (initially `None`) is passed and returned explicitly: the result is
`(reward, new baseline)`.  On the first call (no baseline) the current
metrics are stored as baseline and `0.0` is returned; afterwards the
reward accumulates the four weighted delta terms, the action reward, and
the `-5.0` penalty when the pass rate fell more than `0.1` below
baseline. -/
def calculate_reward (baseline_metrics : Option Metrics) (current : Metrics)
    (action : Action) : ℚ × Option Metrics :=
  match baseline_metrics with
  | none => (0, some current)
  | some b =>
    let reward :=
      (current.test_pass_rate - b.test_pass_rate) * 10 +
      (current.test_coverage - b.test_coverage) * 5 +
      (b.code_complexity - current.code_complexity) * 2 +
      (b.dependency_count - current.dependency_count) * (1/2) +
      action_rewards b current action
    let reward :=
      if current.test_pass_rate < b.test_pass_rate - 1/10 then reward - 5
      else reward
    (reward, some b)

/-! ### Outer-loop policy (`rl_module.py`, `OuterLoopPolicy`) -/

/-- The sprint-metrics keys read by `update_policy` (via `.get(key, 0)`). -/
structure SprintMetrics where
  test_coverage : ℚ
  features_added : ℚ
  refactoring_done : ℚ
  docs_updated : ℚ
deriving DecidableEq

/-- The mutable state of `OuterLoopPolicy`: the reward history and the four
policy weights. -/
structure OuterLoopPolicy where
  sprint_rewards : List ℚ
  test_focus : ℚ
  feature_focus : ℚ
  refactor_focus : ℚ
  documentation_focus : ℚ
deriving DecidableEq

/-- `OuterLoopPolicy.update_policy`: append the sprint reward, then — when
the history now holds at least two rewards, i.e. the old history was
nonempty — compare the new reward (`rewards[-1]`) with the previous last
one (`rewards[-2]`, obtained here as `getLast?` of the old history).  On a
strictly positive trend each weight with evidence in the metrics is
multiplied by `1.1`; otherwise all four weights are multiplied by `0.9`. -/
def OuterLoopPolicy.update_policy (st : OuterLoopPolicy) (sprint_reward : ℚ)
    (m : SprintMetrics) : OuterLoopPolicy :=
  let rewards := st.sprint_rewards ++ [sprint_reward]
  match st.sprint_rewards.getLast? with
  | none => { st with sprint_rewards := rewards }
  | some prev =>
    if 0 < sprint_reward - prev then
      { sprint_rewards := rewards
        test_focus :=
          if 8/10 < m.test_coverage then st.test_focus * (11/10)
          else st.test_focus
        feature_focus :=
          if 0 < m.features_added then st.feature_focus * (11/10)
          else st.feature_focus
        refactor_focus :=
          if 0 < m.refactoring_done then st.refactor_focus * (11/10)
          else st.refactor_focus
        documentation_focus :=
          if 0 < m.docs_updated then st.documentation_focus * (11/10)
          else st.documentation_focus }
    else
      { sprint_rewards := rewards
        test_focus := st.test_focus * (9/10)
        feature_focus := st.feature_focus * (9/10)
        refactor_focus := st.refactor_focus * (9/10)
        documentation_focus := st.documentation_focus * (9/10) }

/-! ### Error recovery (`error_recovery.py`) -/

/-- `ErrorSeverity` enumeration. -/
inductive ErrorSeverity where
  | LOW
  | MEDIUM
  | HIGH
  | CRITICAL
deriving DecidableEq

/-- `RecoveryAction` enumeration. -/
inductive RecoveryAction where
  | RETRY
  | FALLBACK
  | ROLLBACK
  | RESTART
  | SKIP
  | ABORT
deriving DecidableEq

/-- The three circuit-breaker states (`"CLOSED"`, `"OPEN"`,
`"HALF_OPEN"` strings in the source). -/
inductive BreakerState where
  | CLOSED
  | OPEN
  | HALF_OPEN
deriving DecidableEq

/-- `ErrorRecoveryManager._determine_severity`: a fixed lookup on the
exception type name (the `component` read there is unused by the
decision). -/
def determine_severity (error_type : String) : ErrorSeverity :=
  if error_type = "KeyboardInterrupt" ∨ error_type = "SystemExit" then
    ErrorSeverity.CRITICAL
  else if error_type = "ConnectionError" ∨ error_type = "TimeoutError" ∨
      error_type = "FileNotFoundError" then
    ErrorSeverity.HIGH
  else if error_type = "ValueError" ∨ error_type = "TypeError" ∨
      error_type = "AttributeError" then
    ErrorSeverity.MEDIUM
  else
    ErrorSeverity.LOW

/-- `ErrorContext` (the fields `_determine_recovery_action` reads).
`retry_count` and `max_retries` are Python ints. -/
structure ErrorContext where
  error_type : String
  error_message : String
  severity : ErrorSeverity
  component : String
  operation : String
  retry_count : ℤ
  max_retries : ℤ
deriving DecidableEq

/-- `ErrorRecoveryManager._create_error_context`: the severity is computed
from the exception's type name. -/
def create_error_context (error_type error_message component operation :
    String) (retry_count max_retries : ℤ) : ErrorContext :=
  { error_type := error_type
    error_message := error_message
    severity := determine_severity error_type
    component := component
    operation := operation
    retry_count := retry_count
    max_retries := max_retries }

/-- `ErrorRecoveryManager._determine_recovery_action`.  `breakers` models
`self.circuit_breakers.get(component)` followed by reading `.state`:
`none` when the component has no breaker.  The source checks, in order:
retry budget exhausted, then breaker OPEN, then severity. -/
def determine_recovery_action (breakers : String → Option BreakerState)
    (ctx : ErrorContext) : RecoveryAction :=
  if ctx.max_retries ≤ ctx.retry_count then
    if ctx.severity = ErrorSeverity.CRITICAL then RecoveryAction.ABORT
    else if ctx.severity = ErrorSeverity.HIGH then RecoveryAction.ROLLBACK
    else RecoveryAction.SKIP
  else if breakers ctx.component = some BreakerState.OPEN then
    RecoveryAction.FALLBACK
  else if ctx.severity = ErrorSeverity.LOW ∨
      ctx.severity = ErrorSeverity.MEDIUM then
    RecoveryAction.RETRY
  else if ctx.severity = ErrorSeverity.HIGH then
    RecoveryAction.FALLBACK
  else
    RecoveryAction.ABORT

/-- `RecoveryResult` (dataclass). -/
structure RecoveryResult where
  success : Bool
  action_taken : RecoveryAction
  recovery_time : ℚ
  new_error : Option String
deriving DecidableEq

/-- Outcome of running a recovery branch: either a returned
`RecoveryResult` or a raised exception carrying its message. -/
inductive ExecOutcome where
  | ok (r : RecoveryResult)
  | raised (msg : String)
deriving DecidableEq

/-- The `try` block of `handle_error`: the SKIP and ABORT branches build
their `RecoveryResult` inline (and cannot raise); the RETRY, FALLBACK,
ROLLBACK and RESTART branches call helper operations that may raise, which
the oracle `exec` models.  `elapsed` stands for
`time.time() - start_time`. -/
def try_recovery (exec : RecoveryAction → ExecOutcome)
    (elapsed : ℚ) (action : RecoveryAction) : ExecOutcome :=
  match action with
  | RecoveryAction.SKIP =>
      ExecOutcome.ok ⟨true, RecoveryAction.SKIP, elapsed, none⟩
  | RecoveryAction.ABORT =>
      ExecOutcome.ok ⟨false, RecoveryAction.ABORT, elapsed, none⟩
  | a => exec a

/-- The recovery-execution step of `ErrorRecoveryManager.handle_error`:
the chosen action is decided by the decision table, the `try` block runs,
and the `except` clause turns a raised exception into a failed
`RecoveryResult` carrying the exception's message as `new_error`. -/
def handle_error (breakers : String → Option BreakerState)
    (ctx : ErrorContext) (exec : RecoveryAction → ExecOutcome)
    (elapsed : ℚ) : RecoveryResult :=
  let recovery_action := determine_recovery_action breakers ctx
  match try_recovery exec elapsed recovery_action with
  | ExecOutcome.ok r => r
  | ExecOutcome.raised msg => ⟨false, recovery_action, elapsed, some msg⟩

/-! ### Circuit breaker (`error_recovery.py`, `CircuitBreaker`) -/

/-- The mutable state of a `CircuitBreaker`.  Times are rationals
(seconds); `last_failure_time` starts as `None`. -/
structure CircuitBreaker where
  failure_threshold : ℕ
  timeout : ℚ
  failure_count : ℕ
  last_failure_time : Option ℚ
  state : BreakerState
deriving DecidableEq

/-- `CircuitBreaker(failure_threshold, timeout)`: fresh breaker. -/
def CircuitBreaker.init (failure_threshold : ℕ) (timeout : ℚ) :
    CircuitBreaker :=
  ⟨failure_threshold, timeout, 0, none, BreakerState.CLOSED⟩

/-- Whether the wrapped function succeeds when it is invoked. -/
inductive CallOutcome where
  | success
  | failure
deriving DecidableEq

/-- Observable result of `CircuitBreaker.call`: either the short-circuit
exception (wrapped function not invoked), or the invocation's own outcome
(a failure is re-raised by the source). -/
inductive CallResult where
  | fastFail
  | invoked (o : CallOutcome)
deriving DecidableEq

/-- `CircuitBreaker._should_attempt_reset` at wall-clock time `now`. -/
def CircuitBreaker.should_attempt_reset (cb : CircuitBreaker) (now : ℚ) :
    Bool :=
  match cb.last_failure_time with
  | none => true
  | some t => decide (cb.timeout ≤ now - t)

/-- `CircuitBreaker._on_success`. -/
def CircuitBreaker.on_success (cb : CircuitBreaker) : CircuitBreaker :=
  { cb with failure_count := 0, state := BreakerState.CLOSED }

/-- `CircuitBreaker._on_failure` at time `now`. -/
def CircuitBreaker.on_failure (cb : CircuitBreaker) (now : ℚ) :
    CircuitBreaker :=
  let fc := cb.failure_count + 1
  { cb with
      failure_count := fc
      last_failure_time := some now
      state :=
        if cb.failure_threshold ≤ fc then BreakerState.OPEN else cb.state }

/-- The guard at the top of `CircuitBreaker.call`: in OPEN state either
move to HALF_OPEN (timeout elapsed) or raise the fast failure (`none`). -/
def CircuitBreaker.pre_call (cb : CircuitBreaker) (now : ℚ) :
    Option CircuitBreaker :=
  if cb.state = BreakerState.OPEN then
    if cb.should_attempt_reset now then
      some { cb with state := BreakerState.HALF_OPEN }
    else none
  else some cb

/-- `CircuitBreaker.call` at time `now`, where `outcome` tells whether the
wrapped function succeeds if invoked: fast-fail without invoking when
OPEN and the timeout has not elapsed, otherwise invoke and run
`_on_success` / `_on_failure` (the failure is re-raised). -/
def CircuitBreaker.call (cb : CircuitBreaker) (now : ℚ)
    (outcome : CallOutcome) : CircuitBreaker × CallResult :=
  match cb.pre_call now with
  | none => (cb, CallResult.fastFail)
  | some cb' =>
    match outcome with
    | CallOutcome.success => (cb'.on_success, CallResult.invoked outcome)
    | CallOutcome.failure => (cb'.on_failure now, CallResult.invoked outcome)

end AutogenTS

namespace AutogenTS

/-- C1: after `update(s, a, r, s')` the Q-table entry for `(s, a)` changed by
exactly `alpha * (r + gamma * max(Q_old[s']) - Q_old[s, a])`, where the row
maximum is taken over the table before the update, and every other entry is
unchanged (exactly one entry is updated per call). -/
theorem c1_q_update_law (alpha gamma : ℚ) (q : QTable) (s : ℕ) (a : Action)
    (r : ℚ) (s' : ℕ) :
    QLearningAgent.update alpha gamma q s a r s' s a.index - q s a.index
      = alpha * (r + gamma * maxQ q s' - q s a.index)
    ∧ ∀ i j, ¬(i = s ∧ j = a.index) →
        QLearningAgent.update alpha gamma q s a r s' i j = q i j := by
  constructor
  · show (if s = s ∧ a.index = a.index then
        q s a.index + alpha * (r + gamma * maxQ q s' - q s a.index)
      else q s a.index) - q s a.index
      = alpha * (r + gamma * maxQ q s' - q s a.index)
    rw [if_pos ⟨rfl, rfl⟩]
    ring
  · intro i j hij
    show (if i = s ∧ j = a.index then
        q s a.index + alpha * (r + gamma * maxQ q s' - q s a.index)
      else q i j) = q i j
    rw [if_neg hij]

/-- Witness for `c1_q_update_law`: the entry off the updated cell is
unchanged on a concrete zero table. -/
theorem c1_q_update_law_witness :
    QLearningAgent.update (1/2) (9/10) (fun _ _ => 0) 0 Action.add_tests
      1 1 0 0 = 0 :=
  (c1_q_update_law (1/2) (9/10) (fun _ _ => 0) 0 Action.add_tests 1 1).2
    0 0 (by decide)

/-- C5: with a baseline set, `calculate_reward(current, action)` returns
`10*(pass delta) + 5*(coverage delta) + 2*(baseline cpx - current cpx) +
0.5*(baseline deps - current deps) + action bonus`, minus `5.0` exactly
when the pass rate dropped more than `0.10` below baseline; for the
concrete baseline `{0.5, 0.5, 1.0, 5}`, current `{0.6, 0.55, 0.9, 5}` and
the fix-bugs action the reward is `3.45 = 69/20`. -/
theorem c5_reward_formula (b c : Metrics) (a : Action) :
    ((calculate_reward (some b) c a).1 =
      10 * (c.test_pass_rate - b.test_pass_rate) +
      5 * (c.test_coverage - b.test_coverage) +
      2 * (b.code_complexity - c.code_complexity) +
      (1/2) * (b.dependency_count - c.dependency_count) +
      action_rewards b c a -
      (if 1/10 < b.test_pass_rate - c.test_pass_rate then 5 else 0))
    ∧ (calculate_reward (some (Metrics.mk (1/2) (1/2) 1 5))
        (Metrics.mk (6/10) (55/100) (9/10) 5) Action.fix_bugs).1 = 69/20 := by
  constructor
  · simp only [calculate_reward]
    split_ifs with h1 h2
    · ring
    · exact absurd (by linarith) h2
    · exact absurd (by linarith) h1
    · ring
  · norm_num [calculate_reward, action_rewards]

/-- Witness for `c5_reward_formula`: metrics identical to the baseline
leave only the action bonus (here improve-docs, `0.5`). -/
theorem c5_reward_formula_witness :
    (calculate_reward (some (Metrics.mk 0 0 1 0)) (Metrics.mk 0 0 1 0)
      Action.improve_docs).1 = 1/2 := by
  have h := (c5_reward_formula (Metrics.mk 0 0 1 0) (Metrics.mk 0 0 1 0)
    Action.improve_docs).1
  exact h.trans (by norm_num [action_rewards])

/-- C9: the first call to `calculate_reward` (no baseline yet) stores the
current metrics as baseline and returns exactly `0.0`, for every input and
action; every later call leaves the stored baseline unchanged. -/
theorem c9_first_call_zero (c : Metrics) (a : Action) :
    calculate_reward none c a = (0, some c)
    ∧ ∀ b : Metrics, (calculate_reward (some b) c a).2 = some b :=
  ⟨rfl, fun _ => rfl⟩

/-- Witness for `c9_first_call_zero` on a concrete snapshot. -/
theorem c9_first_call_zero_witness :
    calculate_reward none (Metrics.mk 1 1 1 1) Action.fix_bugs =
      (0, some (Metrics.mk 1 1 1 1)) :=
  (c9_first_call_zero (Metrics.mk 1 1 1 1) Action.fix_bugs).1

/-- C7: with at least two recorded rewards (old history nonempty, last
element `prev`), a strictly improving trend multiplies by `1.1` exactly
the weights whose evidence is present in the sprint metrics and leaves the
rest unchanged; a flat or regressing trend multiplies all four weights
by `0.9`. -/
theorem c7_policy_trend_update (st : OuterLoopPolicy) (r : ℚ)
    (m : SprintMetrics) (prev : ℚ)
    (h : st.sprint_rewards.getLast? = some prev) :
    (prev < r →
      st.update_policy r m =
        { sprint_rewards := st.sprint_rewards ++ [r]
          test_focus :=
            if 8/10 < m.test_coverage then st.test_focus * (11/10)
            else st.test_focus
          feature_focus :=
            if 0 < m.features_added then st.feature_focus * (11/10)
            else st.feature_focus
          refactor_focus :=
            if 0 < m.refactoring_done then st.refactor_focus * (11/10)
            else st.refactor_focus
          documentation_focus :=
            if 0 < m.docs_updated then st.documentation_focus * (11/10)
            else st.documentation_focus })
    ∧ (r ≤ prev →
      st.update_policy r m =
        { sprint_rewards := st.sprint_rewards ++ [r]
          test_focus := st.test_focus * (9/10)
          feature_focus := st.feature_focus * (9/10)
          refactor_focus := st.refactor_focus * (9/10)
          documentation_focus := st.documentation_focus * (9/10) }) := by
  refine ⟨fun hlt => ?_, fun hle => ?_⟩
  · simp only [OuterLoopPolicy.update_policy, h]
    rw [if_pos (by linarith)]
  · simp only [OuterLoopPolicy.update_policy, h]
    rw [if_neg (by simp only [not_lt]; linarith)]

/-- Witness for `c7_policy_trend_update` at a concrete improving trend. -/
theorem c7_policy_trend_update_witness :
    (OuterLoopPolicy.mk [1] 1 1 1 1).update_policy 2
        (SprintMetrics.mk 1 1 0 0) =
      OuterLoopPolicy.mk [1, 2] (11/10) (11/10) 1 1 := by
  have h := (c7_policy_trend_update (OuterLoopPolicy.mk [1] 1 1 1 1) 2
      (SprintMetrics.mk 1 1 0 0) 1 rfl).1 (by norm_num)
  rw [h]
  norm_num

/-- C10: on the very first `update_policy` call (empty reward history) the
weights are untouched; the only state change is appending the reward. -/
theorem c10_first_update_only_appends (st : OuterLoopPolicy) (r : ℚ)
    (m : SprintMetrics) (h : st.sprint_rewards = []) :
    st.update_policy r m = { st with sprint_rewards := [r] } := by
  simp only [OuterLoopPolicy.update_policy, h, List.getLast?_nil,
    List.nil_append]

/-- Witness for `c10_first_update_only_appends` on a concrete state. -/
theorem c10_first_update_only_appends_witness :
    (OuterLoopPolicy.mk [] 1 1 1 1).update_policy 5
        (SprintMetrics.mk 0 0 0 0) =
      OuterLoopPolicy.mk [5] 1 1 1 1 :=
  c10_first_update_only_appends (OuterLoopPolicy.mk [] 1 1 1 1) 5
    (SprintMetrics.mk 0 0 0 0) rfl

/-- C2: the recovery action is decided in the code's exact order: an
exhausted retry budget is checked first (CRITICAL→ABORT, HIGH→ROLLBACK,
LOW/MEDIUM→SKIP); then an OPEN breaker for the error's component forces
FALLBACK regardless of severity; otherwise LOW/MEDIUM→RETRY,
HIGH→FALLBACK, CRITICAL→ABORT. -/
theorem c2_recovery_decision_order
    (breakers : String → Option BreakerState) (ctx : ErrorContext) :
    (ctx.max_retries ≤ ctx.retry_count →
      determine_recovery_action breakers ctx =
        if ctx.severity = ErrorSeverity.CRITICAL then RecoveryAction.ABORT
        else if ctx.severity = ErrorSeverity.HIGH then RecoveryAction.ROLLBACK
        else RecoveryAction.SKIP)
    ∧ (ctx.retry_count < ctx.max_retries →
        breakers ctx.component = some BreakerState.OPEN →
        determine_recovery_action breakers ctx = RecoveryAction.FALLBACK)
    ∧ (ctx.retry_count < ctx.max_retries →
        breakers ctx.component ≠ some BreakerState.OPEN →
        determine_recovery_action breakers ctx =
          if ctx.severity = ErrorSeverity.LOW ∨
              ctx.severity = ErrorSeverity.MEDIUM then RecoveryAction.RETRY
          else if ctx.severity = ErrorSeverity.HIGH then
            RecoveryAction.FALLBACK
          else RecoveryAction.ABORT) := by
  refine ⟨fun h1 => ?_, fun h1 h2 => ?_, fun h1 h2 => ?_⟩
  · unfold determine_recovery_action
    rw [if_pos h1]
  · unfold determine_recovery_action
    rw [if_neg (not_le.mpr h1), if_pos h2]
  · unfold determine_recovery_action
    rw [if_neg (not_le.mpr h1), if_neg h2]

/-- Witness for `c2_recovery_decision_order` on an exhausted retry budget
with a MEDIUM error. -/
theorem c2_recovery_decision_order_witness :
    determine_recovery_action (fun _ => none)
      (create_error_context "ValueError" "m" "git" "op" 3 3) =
      RecoveryAction.SKIP := by
  have h := (c2_recovery_decision_order (fun _ => none)
      (create_error_context "ValueError" "m" "git" "op" 3 3)).1 (by decide)
  exact h.trans (by decide)

/-- Counterexample to C6 as stated: a CRITICAL `KeyboardInterrupt` with
retry budget remaining and an OPEN breaker for its component is routed to
FALLBACK, not ABORT — the breaker check precedes the severity
fallthrough. -/
theorem c6_counterexample :
    determine_severity "KeyboardInterrupt" = ErrorSeverity.CRITICAL
    ∧ determine_recovery_action
        (fun c => if c = "llm" then some BreakerState.OPEN else none)
        (create_error_context "KeyboardInterrupt" "interrupted" "llm" "op"
          0 3) = RecoveryAction.FALLBACK
    ∧ determine_recovery_action
        (fun c => if c = "llm" then some BreakerState.OPEN else none)
        (create_error_context "KeyboardInterrupt" "interrupted" "llm" "op"
          0 3) ≠ RecoveryAction.ABORT := by
  decide

/-- For a context classified CRITICAL the decision table yields FALLBACK
when retries remain and the component's breaker is OPEN, and ABORT in
every other case. -/
theorem critical_recovery_action (breakers : String → Option BreakerState)
    (ctx : ErrorContext) (hs : ctx.severity = ErrorSeverity.CRITICAL) :
    determine_recovery_action breakers ctx =
      if ctx.retry_count < ctx.max_retries ∧
          breakers ctx.component = some BreakerState.OPEN then
        RecoveryAction.FALLBACK
      else RecoveryAction.ABORT := by
  unfold determine_recovery_action
  rw [hs]
  by_cases h1 : ctx.max_retries ≤ ctx.retry_count
  · rw [if_pos h1, if_pos rfl,
      if_neg (fun hc => absurd hc.1 (not_lt.mpr h1))]
  · rw [if_neg h1]
    by_cases h2 : breakers ctx.component = some BreakerState.OPEN
    · rw [if_pos h2, if_pos ⟨lt_of_not_le h1, h2⟩]
    · rw [if_neg h2, if_neg (by decide), if_neg (by decide),
        if_neg (fun hc => h2 hc.2)]

/-- C6 (amended): a `KeyboardInterrupt` or `SystemExit` is always
classified CRITICAL, and the decided action is ABORT for every retry
count and breaker state **except** when retries remain and the error's
component has an OPEN breaker, in which case it is FALLBACK. -/
theorem c6_fatal_severity_action (breakers : String → Option BreakerState)
    (et msg comp op : String) (rc mr : ℤ)
    (h : et = "KeyboardInterrupt" ∨ et = "SystemExit") :
    (create_error_context et msg comp op rc mr).severity =
      ErrorSeverity.CRITICAL
    ∧ determine_recovery_action breakers
        (create_error_context et msg comp op rc mr) =
      (if rc < mr ∧ breakers comp = some BreakerState.OPEN then
        RecoveryAction.FALLBACK
      else RecoveryAction.ABORT) := by
  have hs : (create_error_context et msg comp op rc mr).severity =
      ErrorSeverity.CRITICAL := by
    rcases h with h | h <;> subst h <;> rfl
  exact ⟨hs, critical_recovery_action breakers _ hs⟩

/-- Witness for `c6_fatal_severity_action`: a `SystemExit` with retries
remaining and no breaker for its component aborts. -/
theorem c6_fatal_severity_action_witness :
    (create_error_context "SystemExit" "x" "llm" "op" 0 3).severity =
      ErrorSeverity.CRITICAL
    ∧ determine_recovery_action (fun _ => none)
        (create_error_context "SystemExit" "x" "llm" "op" 0 3) =
      RecoveryAction.ABORT := by
  have h := c6_fatal_severity_action (fun _ => none) "SystemExit" "x"
    "llm" "op" 0 3 (Or.inr rfl)
  exact ⟨h.1, h.2.trans (by decide)⟩

/-- C8: when the chosen recovery action's execution raises, `handle_error`
catches it and returns a `RecoveryResult` with `success = false` and
`new_error` set to the raised message — no exception propagates out of the
recovery-execution step. -/
theorem c8_recovery_exception_contained
    (breakers : String → Option BreakerState) (ctx : ErrorContext)
    (exec : RecoveryAction → ExecOutcome) (elapsed : ℚ) (msg : String)
    (h : try_recovery exec elapsed (determine_recovery_action breakers ctx)
      = ExecOutcome.raised msg) :
    handle_error breakers ctx exec elapsed =
      ⟨false, determine_recovery_action breakers ctx, elapsed, some msg⟩ := by
  simp only [handle_error, h]

/-- Witness for `c8_recovery_exception_contained`: a LOW error whose RETRY
execution raises. -/
theorem c8_recovery_exception_contained_witness :
    handle_error (fun _ => none)
      (create_error_context "RuntimeError" "m" "llm" "op" 0 3)
      (fun _ => ExecOutcome.raised "boom") 2 =
      ⟨false, RecoveryAction.RETRY, 2, some "boom"⟩ := by
  have h := c8_recovery_exception_contained (fun _ => none)
    (create_error_context "RuntimeError" "m" "llm" "op" 0 3)
    (fun _ => ExecOutcome.raised "boom") 2 "boom" (by decide)
  exact h.trans (by decide)

/-- Counterexample to C4 as stated: a negative input is not clipped from
below — `discretize_state` with bucket count 10 maps a pass rate of `-1`
to the negative index `-10000`, outside `[0, n_states)`. -/
theorem c4_counterexample :
    discretize_state 10 (-1) 0 0 0 = -10000
    ∧ ¬(0 ≤ discretize_state 10 (-1) 0 0 0
        ∧ discretize_state 10 (-1) 0 0 0 < n_states 10) := by
  have h : discretize_state 10 (-1) 0 0 0 = -10000 := by
    norm_num [discretize_state, pyTrunc]
    rw [show ((-10 : ℚ)) = ((-10 : ℤ) : ℚ) by norm_num, Int.ceil_intCast]
    decide
  refine ⟨h, fun hc => ?_⟩
  rw [h] at hc
  exact absurd hc.1 (by decide)

/-- C4 (amended): for inputs with all four coordinates nonnegative, each
dimension's bucket is clipped into `[0, B-1]` (inputs `≥ 1.0` land in the
top bucket) and the mixed-radix index lies in `[0, n_states)`; negative
inputs are not clipped from below. -/
theorem c4_discretize_range (B : ℕ) (hB : 1 ≤ B)
    (tpr cov cpx : ℚ) (dep : ℤ)
    (h1 : 0 ≤ tpr) (h2 : 0 ≤ cov) (h3 : 0 ≤ cpx) (h4 : 0 ≤ dep) :
    0 ≤ discretize_state B tpr cov cpx dep
    ∧ discretize_state B tpr cov cpx dep < n_states B
    ∧ (1 ≤ tpr →
        min (pyTrunc (tpr * B)) ((B : ℤ) - 1) = (B : ℤ) - 1) := by
  have hb : (1 : ℤ) ≤ (B : ℤ) := by exact_mod_cast hB
  have hb0 : (0 : ℤ) ≤ (B : ℤ) := by omega
  have key : ∀ x : ℚ, 0 ≤ x →
      0 ≤ min (pyTrunc (x * B)) ((B : ℤ) - 1) ∧
      min (pyTrunc (x * B)) ((B : ℤ) - 1) ≤ (B : ℤ) - 1 := by
    intro x hx
    have hxB : (0 : ℚ) ≤ x * B := mul_nonneg hx (by positivity)
    have hpt : pyTrunc (x * B) = ⌊x * (B : ℚ)⌋ := by
      unfold pyTrunc
      rw [if_pos hxB]
    refine ⟨le_min ?_ (by omega), min_le_right _ _⟩
    rw [hpt]
    exact Int.floor_nonneg.mpr hxB
  obtain ⟨ht0, ht1⟩ := key tpr h1
  obtain ⟨hc0, hc1⟩ := key cov h2
  obtain ⟨hx0, hx1⟩ := key cpx h3
  have hd0 : 0 ≤ min dep ((B : ℤ) - 1) := le_min h4 (by omega)
  have hd1 : min dep ((B : ℤ) - 1) ≤ (B : ℤ) - 1 := min_le_right _ _
  refine ⟨?_, ?_, ?_⟩
  · simp only [discretize_state]
    have p1 : 0 ≤ min (pyTrunc (tpr * B)) ((B : ℤ) - 1) * B * B * B :=
      mul_nonneg (mul_nonneg (mul_nonneg ht0 hb0) hb0) hb0
    have p2 : 0 ≤ min (pyTrunc (cov * B)) ((B : ℤ) - 1) * B * B :=
      mul_nonneg (mul_nonneg hc0 hb0) hb0
    have p3 : 0 ≤ min (pyTrunc (cpx * B)) ((B : ℤ) - 1) * B :=
      mul_nonneg hx0 hb0
    linarith [p1, p2, p3, hd0]
  · simp only [discretize_state, n_states]
    have e1 : min (pyTrunc (tpr * B)) ((B : ℤ) - 1) * B * B * B ≤
        ((B : ℤ) - 1) * B * B * B :=
      mul_le_mul_of_nonneg_right (mul_le_mul_of_nonneg_right
        (mul_le_mul_of_nonneg_right ht1 hb0) hb0) hb0
    have e2 : min (pyTrunc (cov * B)) ((B : ℤ) - 1) * B * B ≤
        ((B : ℤ) - 1) * B * B :=
      mul_le_mul_of_nonneg_right (mul_le_mul_of_nonneg_right hc1 hb0) hb0
    have e3 : min (pyTrunc (cpx * B)) ((B : ℤ) - 1) * B ≤
        ((B : ℤ) - 1) * B :=
      mul_le_mul_of_nonneg_right hx1 hb0
    have hexp : ((B : ℤ) - 1) * B * B * B + ((B : ℤ) - 1) * B * B +
        ((B : ℤ) - 1) * B + ((B : ℤ) - 1) =
        (B : ℤ) * B * B * B - 1 := by ring
    linarith [e1, e2, e3, hd1, hexp]
  · intro htop
    have hBQ : (0 : ℚ) ≤ (B : ℚ) := by positivity
    have hxB : (B : ℚ) ≤ tpr * B := le_mul_of_one_le_left hBQ htop
    have h0 : (0 : ℚ) ≤ tpr * B := le_trans hBQ hxB
    have hfl : (B : ℤ) ≤ ⌊tpr * (B : ℚ)⌋ := by
      rw [Int.le_floor]
      exact_mod_cast hxB
    unfold pyTrunc
    rw [if_pos h0]
    exact min_eq_right (by omega)

/-- Witness for `c4_discretize_range` at bucket count 10 with a pass rate
above 1. -/
theorem c4_discretize_range_witness :
    0 ≤ discretize_state 10 2 (1/2) (1/2) 3
    ∧ discretize_state 10 2 (1/2) (1/2) 3 < n_states 10
    ∧ (1 ≤ (2 : ℚ) →
        min (pyTrunc (2 * (10 : ℕ))) (((10 : ℕ) : ℤ) - 1) =
          ((10 : ℕ) : ℤ) - 1) :=
  c4_discretize_range 10 (by norm_num) 2 (1/2) (1/2) 3 (by norm_num)
    (by norm_num) (by norm_num) (by norm_num)

/-- C3: for a breaker with `failure_threshold = 3`: three consecutive
failed calls open it; while OPEN and before `timeout` seconds have passed
since the last failure, a call short-circuits without invoking the wrapped
function; the first call after `timeout` passes through HALF_OPEN and
invokes the wrapped function; a success there resets to CLOSED with
`failure_count = 0`; a failure there re-opens the breaker and restarts the
timer.  The hypothesis `failure_threshold ≤ failure_count` in the last
part is an invariant of every reachable OPEN breaker (the only transition
into OPEN is `_on_failure` reaching the threshold). -/
theorem c3_circuit_breaker_behavior (T t1 t2 t3 now : ℚ)
    (cb : CircuitBreaker) (o : CallOutcome) :
    ((((CircuitBreaker.init 3 T).call t1 CallOutcome.failure).1.call t2
        CallOutcome.failure).1.call t3 CallOutcome.failure).1 =
      ⟨3, T, 3, some t3, BreakerState.OPEN⟩
    ∧ (∀ t, cb.state = BreakerState.OPEN → cb.last_failure_time = some t →
        now - t < cb.timeout →
        cb.call now o = (cb, CallResult.fastFail))
    ∧ (∀ t, cb.state = BreakerState.OPEN → cb.last_failure_time = some t →
        cb.timeout ≤ now - t →
        cb.pre_call now = some { cb with state := BreakerState.HALF_OPEN }
        ∧ (cb.call now o).2 = CallResult.invoked o)
    ∧ (∀ t, cb.state = BreakerState.OPEN → cb.last_failure_time = some t →
        cb.timeout ≤ now - t →
        (cb.call now CallOutcome.success).1 =
          { cb with failure_count := 0, state := BreakerState.CLOSED })
    ∧ (∀ t, cb.state = BreakerState.OPEN → cb.last_failure_time = some t →
        cb.timeout ≤ now - t → cb.failure_threshold ≤ cb.failure_count →
        (cb.call now CallOutcome.failure).1 =
          { cb with
              failure_count := cb.failure_count + 1
              last_failure_time := some now
              state := BreakerState.OPEN }) := by
  refine ⟨rfl, fun t hs hl hlt => ?_, fun t hs hl hge => ?_,
    fun t hs hl hge => ?_, fun t hs hl hge hth => ?_⟩
  · simp [CircuitBreaker.call, CircuitBreaker.pre_call,
      CircuitBreaker.should_attempt_reset, hs, hl, not_le.mpr hlt]
  · constructor
    · simp [CircuitBreaker.pre_call,
        CircuitBreaker.should_attempt_reset, hs, hl, hge]
    · cases o <;>
        simp [CircuitBreaker.call, CircuitBreaker.pre_call,
          CircuitBreaker.should_attempt_reset, hs, hl, hge]
  · simp [CircuitBreaker.call, CircuitBreaker.pre_call,
      CircuitBreaker.should_attempt_reset, CircuitBreaker.on_success,
      hs, hl, hge]
  · have hth' : cb.failure_threshold ≤ cb.failure_count + 1 :=
      Nat.le_succ_of_le hth
    simp [CircuitBreaker.call, CircuitBreaker.pre_call,
      CircuitBreaker.should_attempt_reset, CircuitBreaker.on_failure,
      hs, hl, hge, hth']

/-- Witness for `c3_circuit_breaker_behavior`: threshold 3, timeout 60,
failures at times 0, 1, 2, then a short-circuited call at time 10 and
invoked calls at time 100. -/
theorem c3_circuit_breaker_behavior_witness :
    ((((CircuitBreaker.init 3 60).call 0 CallOutcome.failure).1.call 1
        CallOutcome.failure).1.call 2 CallOutcome.failure).1 =
      ⟨3, 60, 3, some 2, BreakerState.OPEN⟩
    ∧ (CircuitBreaker.mk 3 60 3 (some 2) BreakerState.OPEN).call 10
        CallOutcome.success =
      (CircuitBreaker.mk 3 60 3 (some 2) BreakerState.OPEN,
        CallResult.fastFail)
    ∧ ((CircuitBreaker.mk 3 60 3 (some 2) BreakerState.OPEN).call 100
        CallOutcome.success).1 =
      CircuitBreaker.mk 3 60 0 (some 2) BreakerState.CLOSED
    ∧ ((CircuitBreaker.mk 3 60 3 (some 2) BreakerState.OPEN).call 100
        CallOutcome.failure).1 =
      CircuitBreaker.mk 3 60 4 (some 100) BreakerState.OPEN := by
  have h1 := c3_circuit_breaker_behavior 60 0 1 2 10
    (CircuitBreaker.mk 3 60 3 (some 2) BreakerState.OPEN)
    CallOutcome.success
  have h2 := c3_circuit_breaker_behavior 60 0 1 2 100
    (CircuitBreaker.mk 3 60 3 (some 2) BreakerState.OPEN)
    CallOutcome.success
  refine ⟨h1.1, h1.2.1 2 rfl rfl (by norm_num), ?_, ?_⟩
  · exact h2.2.2.2.1 2 rfl rfl (by norm_num)
  · exact h2.2.2.2.2 2 rfl rfl (by norm_num) (by norm_num)

end AutogenTS
